import Mathlib

/-!
Shallow embedding of the Scrapling fetch-dispatch layer
(`scrapling/engines/toolbelt/custom.py` and `scrapling/fetchers.py`)
and verification of its specified behaviour.

Python values that the validated configuration paths can carry are
modelled by the inductive `PyVal`; Python runtime types by `PyType`.
Python `raise TypeError(msg)` is modelled as `Except.error (PyErr.typeError msg)`
(the spec names these failures `InvalidEngineError` / `ConfigurationError`,
both of which the code realises as `TypeError`).
-/

/-- A Python value, restricted to the shapes the validated configuration
paths of this layer can carry. -/
inductive PyVal where
  | none
  | bool (b : Bool)
  | int (n : Int)
  | str (s : String)
deriving DecidableEq, Repr

/-- A Python runtime type, as used in `valid_types` lists. -/
inductive PyType where
  | noneType
  | boolT
  | intT
  | strT
deriving DecidableEq, Repr

/-- Python truthiness (`bool(v)`): `None`, `False`, `0` and `""` are falsy. -/
def truthy : PyVal → Bool
  | PyVal.none => false
  | PyVal.bool b => b
  | PyVal.int n => n != 0
  | PyVal.str s => !s.isEmpty

/-- Python `isinstance(v, t)`; note `bool` is a subclass of `int`. -/
def isinstance : PyVal → PyType → Bool
  | PyVal.none, PyType.noneType => true
  | PyVal.bool _, PyType.boolT => true
  | PyVal.bool _, PyType.intT => true
  | PyVal.int _, PyType.intT => true
  | PyVal.str _, PyType.strT => true
  | _, _ => false

/-- Python `type(v) is t` (exact type, no subclassing). -/
def typeIs : PyVal → PyType → Bool
  | PyVal.none, PyType.noneType => true
  | PyVal.bool _, PyType.boolT => true
  | PyVal.int _, PyType.intT => true
  | PyVal.str _, PyType.strT => true
  | _, _ => false

/-- `t.__name__` for the types above. -/
def typeName : PyType → String
  | PyType.noneType => "NoneType"
  | PyType.boolT => "bool"
  | PyType.intT => "int"
  | PyType.strT => "str"

/-- A raised Python exception. Both failure sites of this layer raise
`TypeError`; the spec calls them `InvalidEngineError` (capability check)
and `ConfigurationError` (type validation). -/
inductive PyErr where
  | typeError (msg : String)
deriving DecidableEq, Repr

/-- The `fetch` member of a candidate engine: either a callable with a
number of signature parameters, or a non-callable attribute. -/
inductive Member where
  | callable (params : Nat)
  | notCallable
deriving DecidableEq, Repr

/-- A candidate engine object, seen through the attribute probes the
capability check performs: `engine.fetch` is absent (`hasattr` false),
a non-callable attribute, or a callable with a parameter count
(`len(inspect.signature(fetch).parameters)`). -/
structure Engine where
  fetch : Option Member
deriving DecidableEq, Repr

/-- Message raised when the candidate has no `fetch` member
(`custom.py` line 171). -/
def msgMissingFetch : String :=
  "Invalid engine class! Engine class must have the method \x27fetch\x27"

/-- Message raised when `fetch` exists but is not callable
(`custom.py` line 168). -/
def msgFetchNotCallable : String :=
  "Invalid engine class! Engine class must have a callable method \x27fetch\x27"

/-- Message raised when the callable `fetch` takes zero parameters
(`custom.py` line 165). -/
def msgFetchNoArgs : String :=
  "Engine class must have a callable method \x27fetch\x27 with the first argument used for the url."

/-- `check_if_engine_usable` (`custom.py` lines 148-171): probes the
candidate's `fetch` member and either returns the candidate unchanged or
raises `TypeError`. -/
def check_if_engine_usable (engine : Engine) : Except PyErr Engine :=
  match engine.fetch with
  | some fetch_function =>
    match fetch_function with
    | Member.callable params =>
      if params > 0 then
        Except.ok engine
      else
        Except.error (PyErr.typeError msgFetchNoArgs)
    | Member.notCallable => Except.error (PyErr.typeError msgFetchNotCallable)
  | Option.none => Except.error (PyErr.typeError msgMissingFetch)

/-- A candidate passes the capability check iff its `fetch` member is a
callable with at least one parameter. -/
def engineUsable (e : Engine) : Bool :=
  match e.fetch with
  | some (Member.callable params) => params > 0
  | _ => false

/-- C1: `check_if_engine_usable` follows exactly the three-case failure
matrix: missing `fetch` member, non-callable `fetch`, and zero-parameter
callable `fetch` each raise a `TypeError` (the spec's
`InvalidEngineError`); a callable `fetch` with one or more parameters
returns the very same candidate unchanged. -/
theorem check_if_engine_usable_matrix (e : Engine) :
    (e.fetch = Option.none →
      check_if_engine_usable e = Except.error (PyErr.typeError msgMissingFetch))
    ∧ (e.fetch = some Member.notCallable →
      check_if_engine_usable e = Except.error (PyErr.typeError msgFetchNotCallable))
    ∧ (e.fetch = some (Member.callable 0) →
      check_if_engine_usable e = Except.error (PyErr.typeError msgFetchNoArgs))
    ∧ (∀ p : Nat, 0 < p → e.fetch = some (Member.callable p) →
      check_if_engine_usable e = Except.ok e) := by
  refine ⟨?_, ?_, ?_, ?_⟩
  · intro h; simp [check_if_engine_usable, h]
  · intro h; simp [check_if_engine_usable, h]
  · intro h; simp [check_if_engine_usable, h]
  · intro p hp h; simp [check_if_engine_usable, h, hp]

/-- Witness for C1: the four cases of the matrix at concrete candidates. -/
theorem check_if_engine_usable_matrix_witness :
    check_if_engine_usable ⟨Option.none⟩
      = Except.error (PyErr.typeError msgMissingFetch)
    ∧ check_if_engine_usable ⟨some Member.notCallable⟩
      = Except.error (PyErr.typeError msgFetchNotCallable)
    ∧ check_if_engine_usable ⟨some (Member.callable 0)⟩
      = Except.error (PyErr.typeError msgFetchNoArgs)
    ∧ check_if_engine_usable ⟨some (Member.callable 1)⟩
      = Except.ok ⟨some (Member.callable 1)⟩ :=
  ⟨(check_if_engine_usable_matrix ⟨Option.none⟩).1 rfl,
   (check_if_engine_usable_matrix ⟨some Member.notCallable⟩).2.1 rfl,
   (check_if_engine_usable_matrix ⟨some (Member.callable 0)⟩).2.2.1 rfl,
   (check_if_engine_usable_matrix ⟨some (Member.callable 1)⟩).2.2.2 1 (by decide) rfl⟩

/-- The shared `adaptor_arguments` dictionary built by `BaseFetcher.__init__`
(`custom.py` lines 54-68) and consumed by `Response.__init__`.
`automatch_domain` is present in the dict only when `BaseFetcher` added it. -/
structure AdaptorArguments where
  huge_tree : Bool
  keep_comments : Option Bool
  auto_match : Option Bool
  storage_args : Option PyVal
  debug : Option Bool
  automatch_domain : Option PyVal
deriving DecidableEq, Repr

/-- Warning logged by `BaseFetcher.__init__` for a truthy non-string
`automatch_domain` (`custom.py` line 66). -/
def msgAutomatchIgnored : String :=
  "[Ignored] The argument \x22automatch_domain\x22 must be of string type"

/-- `BaseFetcher.__init__` (`custom.py` lines 32-68), reduced to the part
that builds `adaptor_arguments`: the base dict is always built; then, only
if `automatch_domain` is truthy, it is either added to the dict (when its
exact type is `str`) or dropped with a logged warning. Returns the dict
together with the list of warnings logged. -/
def BaseFetcher.init (huge_tree : Bool) (keep_comments auto_match : Option Bool)
    (storage_args : Option PyVal) (debug : Option Bool)
    (automatch_domain : PyVal) : AdaptorArguments × List String :=
  let base : AdaptorArguments :=
    { huge_tree := huge_tree, keep_comments := keep_comments,
      auto_match := auto_match, storage_args := storage_args, debug := debug,
      automatch_domain := Option.none }
  if truthy automatch_domain then
    if !typeIs automatch_domain PyType.strT then
      (base, [msgAutomatchIgnored])
    else
      ({ base with automatch_domain := some automatch_domain }, [])
  else
    (base, [])

/-- The unified response object built by `Response.__init__`
(`custom.py` lines 16-25). The `url` attribute holds
`automatch_domain or url`, so it is a `PyVal` in general. -/
structure Response where
  url : PyVal
  status : Int
  reason : String
  cookies : List (String × String)
  headers : List (String × String)
  request_headers : List (String × String)
  text : String
  body : String
  encoding : String
deriving DecidableEq, Repr

/-- `Response.__init__` (`custom.py` lines 16-25): pops
`automatch_domain` out of `adaptor_arguments` (default `None`) and passes
`url=automatch_domain or url` to the `Adaptor` superclass, which stores it
as the `url` attribute. -/
def Response.init (url : String) (text : String) (body : String)
    (status : Int) (reason : String)
    (cookies headers request_headers : List (String × String))
    (encoding : String) (adaptor_arguments : AdaptorArguments) : Response :=
  let automatch_domain := adaptor_arguments.automatch_domain
  { url :=
      match automatch_domain with
      | some v => if truthy v then v else PyVal.str url
      | Option.none => PyVal.str url,
    status := status, reason := reason, cookies := cookies,
    headers := headers, request_headers := request_headers,
    text := text, body := body, encoding := encoding }

/-- The backend engine families a dispatcher can construct. -/
inductive EngineKind where
  | static
  | camoufox
  | playwright
  | custom
deriving DecidableEq, Repr

/-- The HTTP verbs of the synchronous-HTTP family. -/
inductive HttpMethod where
  | get
  | post
  | put
  | delete
deriving DecidableEq, Repr

/-- Observable actions a dispatch call performs, in order. The engines
themselves (`StaticEngine`, `CamoufoxEngine`, `PlaywrightEngine`, and any
custom engine) are external collaborators, so constructing one and
invoking its fetch capability are recorded as events rather than
executed. -/
inductive Event where
  | capabilityCheck (e : Engine)
  | engineConstructed (k : EngineKind)
  | staticRequest (m : HttpMethod) (url : String)
  | engineFetchInvoked (k : EngineKind) (url : String)
deriving DecidableEq, Repr

/-- `true` iff the event is not a run of the engine capability check. -/
def Event.notCapabilityCheck : Event → Bool
  | Event.capabilityCheck _ => false
  | _ => true

/-- `Fetcher.get` (`fetchers.py` lines 12-23): constructs a
`StaticEngine` with the shared adaptor arguments and calls its `get`
method directly. Request parameters (redirects, timeout, headers) are
forwarded to the engine and elided here. -/
def Fetcher.get (_a : AdaptorArguments) (url : String) : List Event :=
  [Event.engineConstructed EngineKind.static,
   Event.staticRequest HttpMethod.get url]

/-- `Fetcher.post` (`fetchers.py` lines 25-36). -/
def Fetcher.post (_a : AdaptorArguments) (url : String) : List Event :=
  [Event.engineConstructed EngineKind.static,
   Event.staticRequest HttpMethod.post url]

/-- `Fetcher.put` (`fetchers.py` lines 38-49). -/
def Fetcher.put (_a : AdaptorArguments) (url : String) : List Event :=
  [Event.engineConstructed EngineKind.static,
   Event.staticRequest HttpMethod.put url]

/-- `Fetcher.delete` (`fetchers.py` lines 51-62). -/
def Fetcher.delete (_a : AdaptorArguments) (url : String) : List Event :=
  [Event.engineConstructed EngineKind.static,
   Event.staticRequest HttpMethod.delete url]

/-- `StealthyFetcher.fetch` (`fetchers.py` lines 71-121): constructs a
`CamoufoxEngine` with the shared adaptor arguments plus browser options
(elided) and calls `engine.fetch(url)` directly. -/
def StealthyFetcher.fetch (_a : AdaptorArguments) (url : String) : List Event :=
  [Event.engineConstructed EngineKind.camoufox,
   Event.engineFetchInvoked EngineKind.camoufox url]

/-- `PlayWrightFetcher.fetch` (`fetchers.py` lines 139-192): constructs a
`PlaywrightEngine` with the shared adaptor arguments plus browser options
(elided) and calls `engine.fetch(url)` directly. -/
def PlayWrightFetcher.fetch (_a : AdaptorArguments) (url : String) : List Event :=
  [Event.engineConstructed EngineKind.playwright,
   Event.engineFetchInvoked EngineKind.playwright url]

/-- `CustomFetcher.fetch` (`fetchers.py` lines 195-198):
`check_if_engine_usable(browser_engine)(adaptor_arguments=..., **kwargs)`
followed by `engine.fetch(url)`. The capability check runs first; only if
it succeeds is the checked engine instantiated and its fetch invoked. A
raised `TypeError` propagates, producing no further events. -/
def CustomFetcher.fetch (_a : AdaptorArguments) (url : String)
    (browser_engine : Engine) : Except PyErr Unit × List Event :=
  match check_if_engine_usable browser_engine with
  | Except.error err =>
    (Except.error err, [Event.capabilityCheck browser_engine])
  | Except.ok _ =>
    (Except.ok (), [Event.capabilityCheck browser_engine,
                    Event.engineConstructed EngineKind.custom,
                    Event.engineFetchInvoked EngineKind.custom url])

/-- C2: on the custom-engine path the capability check always runs, and
with an engine that fails it the call raises (the spec's
`InvalidEngineError`, a `TypeError`) before the engine is constructed and
before its fetch capability is invoked: the trace holds the capability
check and nothing else. -/
theorem customFetcher_check_runs_first :
    (∀ (a : AdaptorArguments) (url : String) (e : Engine),
      Event.capabilityCheck e ∈ (CustomFetcher.fetch a url e).2)
    ∧ (∀ (a : AdaptorArguments) (url : String) (e : Engine),
        engineUsable e = false →
        (∃ msg : String,
          (CustomFetcher.fetch a url e).1 = Except.error (PyErr.typeError msg))
        ∧ (CustomFetcher.fetch a url e).2 = [Event.capabilityCheck e]) := by
  constructor
  · intro a url e
    unfold CustomFetcher.fetch
    cases h : check_if_engine_usable e <;> simp
  · intro a url e hu
    unfold CustomFetcher.fetch
    cases hfe : e.fetch with
    | none => simp [check_if_engine_usable, hfe, msgMissingFetch]
    | some m =>
      cases m with
      | notCallable => simp [check_if_engine_usable, hfe, msgFetchNotCallable]
      | callable p =>
        cases p with
        | zero => simp [check_if_engine_usable, hfe, msgFetchNoArgs]
        | succ q =>
          exfalso
          simp [engineUsable, hfe] at hu

/-- Witness for C2: a concrete engine without a `fetch` member fails the
check, raises, and produces no construction or invocation event. -/
theorem customFetcher_check_runs_first_witness :
    Event.capabilityCheck ⟨Option.none⟩ ∈
      (CustomFetcher.fetch
        ⟨true, some false, some true, Option.none, some false, Option.none⟩
        "http://a.example/" ⟨Option.none⟩).2
    ∧ (∃ msg : String,
        (CustomFetcher.fetch
          ⟨true, some false, some true, Option.none, some false, Option.none⟩
          "http://a.example/" ⟨Option.none⟩).1
          = Except.error (PyErr.typeError msg))
    ∧ (CustomFetcher.fetch
        ⟨true, some false, some true, Option.none, some false, Option.none⟩
        "http://a.example/" ⟨Option.none⟩).2
        = [Event.capabilityCheck ⟨Option.none⟩] := by
  refine ⟨customFetcher_check_runs_first.1 _ _ _, ?_⟩
  exact customFetcher_check_runs_first.2
    ⟨true, some false, some true, Option.none, some false, Option.none⟩
    "http://a.example/" ⟨Option.none⟩ (by decide)

/-- C8: the built-in dispatch paths never run the engine capability
check: every event of every synchronous-HTTP method and of both
browser-family fetch methods is something other than `capabilityCheck`. -/
theorem builtin_paths_never_capability_check
    (a : AdaptorArguments) (url : String) :
    (Fetcher.get a url).all Event.notCapabilityCheck = true
    ∧ (Fetcher.post a url).all Event.notCapabilityCheck = true
    ∧ (Fetcher.put a url).all Event.notCapabilityCheck = true
    ∧ (Fetcher.delete a url).all Event.notCapabilityCheck = true
    ∧ (StealthyFetcher.fetch a url).all Event.notCapabilityCheck = true
    ∧ (PlayWrightFetcher.fetch a url).all Event.notCapabilityCheck = true := by
  refine ⟨rfl, rfl, rfl, rfl, rfl, rfl⟩

/-- C3: constructing a `Response` with `automatch_domain="example.com"` in
the adaptor arguments and request url `"http://sub.example.org/x"` yields
`url = "example.com"`; with the override absent the `url` attribute is the
original request url. -/
theorem response_url_automatch_override (text body : String) (status : Int)
    (reason : String) (cookies headers request_headers : List (String × String))
    (encoding : String) (a : AdaptorArguments) :
    (Response.init "http://sub.example.org/x" text body status reason
        cookies headers request_headers encoding
        { a with automatch_domain := some (PyVal.str "example.com") }).url
      = PyVal.str "example.com"
    ∧ (Response.init "http://sub.example.org/x" text body status reason
        cookies headers request_headers encoding
        { a with automatch_domain := Option.none }).url
      = PyVal.str "http://sub.example.org/x" := by
  constructor
  · simp [Response.init, truthy]
    decide
  · simp [Response.init]

/-- C9: when the `automatch_domain` key is present in the adaptor
arguments but holds a falsy value (empty string, `None`, `False`, `0`),
`Response.__init__` keeps the original request url: the override takes
effect only when truthy, because the url is computed as
`automatch_domain or url`. -/
theorem response_url_falsy_override_ignored (url text body : String)
    (status : Int) (reason : String)
    (cookies headers request_headers : List (String × String))
    (encoding : String) (a : AdaptorArguments) (v : PyVal)
    (hfalsy : truthy v = false) :
    (Response.init url text body status reason
        cookies headers request_headers encoding
        { a with automatch_domain := some v }).url = PyVal.str url := by
  simp [Response.init, hfalsy]

/-- Witness for C9: the empty string as override leaves the url intact. -/
theorem response_url_falsy_override_ignored_witness :
    (Response.init "http://sub.example.org/x" "t" "b" 200 "OK" [] [] []
        "utf-8"
        { huge_tree := true, keep_comments := some false,
          auto_match := some true, storage_args := Option.none,
          debug := some false,
          automatch_domain := some (PyVal.str "") }).url
      = PyVal.str "http://sub.example.org/x" :=
  response_url_falsy_override_ignored "http://sub.example.org/x" "t" "b" 200
    "OK" [] [] [] "utf-8"
    { huge_tree := true, keep_comments := some false, auto_match := some true,
      storage_args := Option.none, debug := some false,
      automatch_domain := Option.none }
    (PyVal.str "") (by decide)

/-- Counterexample to C7 as stated: `BaseFetcher.__init__` with the
non-string value `0` for `automatch_domain` logs no warning at all — the
guard `if automatch_domain:` is false for falsy values, so the type check
and its warning are skipped; the default (no override) is still used. -/
theorem baseFetcher_falsy_nonstring_no_warning :
    typeIs (PyVal.int 0) PyType.strT = false
    ∧ (BaseFetcher.init true (some false) (some true) Option.none (some false)
        (PyVal.int 0)).2 = []
    ∧ (BaseFetcher.init true (some false) (some true) Option.none (some false)
        (PyVal.int 0)).1.automatch_domain = Option.none := by
  refine ⟨rfl, ?_, ?_⟩ <;> simp [BaseFetcher.init, truthy]

/-- C7 amended: a non-string `automatch_domain` value is never accepted
into the shared adaptor configuration — the override field stays at its
default — and the warning is logged exactly when the invalid value is
truthy; falsy invalid values are skipped silently. -/
theorem baseFetcher_nonstring_rejected (huge_tree : Bool)
    (keep_comments auto_match : Option Bool) (storage_args : Option PyVal)
    (debug : Option Bool) (v : PyVal)
    (hns : typeIs v PyType.strT = false) :
    (BaseFetcher.init huge_tree keep_comments auto_match storage_args debug
        v).1.automatch_domain = Option.none
    ∧ (BaseFetcher.init huge_tree keep_comments auto_match storage_args debug
        v).2 = (if truthy v then [msgAutomatchIgnored] else []) := by
  unfold BaseFetcher.init
  cases htr : truthy v <;> simp [hns, htr]

/-- Witness for C7 amended: the truthy non-string `1` is rejected with
the warning and the override stays unset. -/
theorem baseFetcher_nonstring_rejected_witness :
    (BaseFetcher.init true (some false) (some true) Option.none (some false)
        (PyVal.int 1)).1.automatch_domain = Option.none
    ∧ (BaseFetcher.init true (some false) (some true) Option.none (some false)
        (PyVal.int 1)).2
      = (if truthy (PyVal.int 1) then [msgAutomatchIgnored] else []) :=
  baseFetcher_nonstring_rejected true (some false) (some true) Option.none
    (some false) (PyVal.int 1) (by decide)

/-- The result of one `check_type_validity` call: the returned value or
the raised `TypeError`, together with the log lines emitted. -/
structure TVResult where
  result : Except PyErr PyVal
  logs : List String
deriving Repr

/-- The `var_name` computed at `custom.py` line 197:
`param_name or get_variable_name(variable) or "Unknown"`. The scan of
the host runtime's scopes done by `get_variable_name` is passed in as
the oracle argument `introspected_name` (the spec flags this best-effort
discovery as inherently unreliable). Python `or` falls through on the
empty string. -/
def varNameOf (param_name introspected_name : Option String) : String :=
  let fallback :=
    match introspected_name with
    | some s => if s.isEmpty then "Unknown" else s
    | Option.none => "Unknown"
  match param_name with
  | some s => if s.isEmpty then fallback else s
  | Option.none => fallback

/-- `check_type_validity` (`custom.py` lines 186-225): normalises
`valid_types` with `valid_types or []`, handles an absent (`None`) value
first, then the empty-`valid_types` pass-through, then the
`isinstance` scan; failures raise `TypeError` when `critical` and
otherwise log `[Ignored] ...` and return `default_value`. The Python
parameter `variable` is named `var` here (`variable` is reserved). -/
def check_type_validity (var : PyVal)
    (valid_types : Option (List PyType)) (default_value : PyVal)
    (critical : Bool) (param_name introspected_name : Option String) :
    TVResult :=
  let var_name := varNameOf param_name introspected_name
  let vts := valid_types.getD []
  if var = PyVal.none then
    if vts.contains PyType.noneType then
      { result := Except.ok var, logs := [] }
    else
      let error_msg := "Argument \x22" ++ var_name ++ "\x22 cannot be None"
      if critical then
        { result := Except.error (PyErr.typeError error_msg), logs := [] }
      else
        { result := Except.ok default_value, logs := ["[Ignored] " ++ error_msg] }
  else if vts.isEmpty then
    { result := Except.ok var, logs := [] }
  else if !(vts.any (fun t => isinstance var t)) then
    let type_names := vts.map typeName
    let error_msg := "Argument \x22" ++ var_name ++ "\x22 must be of type "
      ++ String.intercalate " or " type_names
    if critical then
      { result := Except.error (PyErr.typeError error_msg), logs := [] }
    else
      { result := Except.ok default_value, logs := ["[Ignored] " ++ error_msg] }
  else
    { result := Except.ok var, logs := [] }

/-- `true` iff `check_type_validity` treats the value as failing
validation: the value is absent and absence is not an allowed kind, or
the value is present, the kind list is non-empty, and no kind matches. -/
def validationFails (var : PyVal)
    (valid_types : Option (List PyType)) : Bool :=
  let vts := valid_types.getD []
  if var = PyVal.none then
    !(vts.contains PyType.noneType)
  else if vts.isEmpty then
    false
  else
    !(vts.any (fun t => isinstance var t))

/-- C4: with `critical=False`, `check_type_validity` never raises: the
result is always a returned value, namely the supplied default exactly
when validation fails and the original value otherwise. -/
theorem check_type_validity_noncritical (var : PyVal)
    (valid_types : Option (List PyType)) (default_value : PyVal)
    (param_name introspected_name : Option String) :
    (check_type_validity var valid_types default_value false
        param_name introspected_name).result
      = Except.ok
          (if validationFails var valid_types then default_value
           else var) := by
  by_cases h1 : var = PyVal.none
  · by_cases h2 : PyType.noneType ∈ valid_types.getD []
    · simp [check_type_validity, validationFails, h1, h2]
    · simp [check_type_validity, validationFails, h1, h2]
  · by_cases h3 : valid_types.getD [] = []
    · simp [check_type_validity, validationFails, h1, h3]
    · by_cases h4 : ∀ t ∈ valid_types.getD [], isinstance var t = false
      · simp [check_type_validity, validationFails, h1, h3, eq_true h4]
      · simp [check_type_validity, validationFails, h1, h3, h4]

/-- C5: with `critical=True`, `check_type_validity` raises a `TypeError`
(the spec's `ConfigurationError`) exactly when validation fails — with a
message listing all allowed kind names joined by " or " in the wrong-kind
case — and returns the original value unchanged when validation passes. -/
theorem check_type_validity_critical (var : PyVal)
    (valid_types : Option (List PyType)) (default_value : PyVal)
    (param_name introspected_name : Option String) :
    (check_type_validity var valid_types default_value true
        param_name introspected_name).result
      = (if validationFails var valid_types then
          Except.error (PyErr.typeError
            (if var = PyVal.none then
              "Argument \x22" ++ varNameOf param_name introspected_name
                ++ "\x22 cannot be None"
            else
              "Argument \x22" ++ varNameOf param_name introspected_name
                ++ "\x22 must be of type "
                ++ String.intercalate " or "
                    ((valid_types.getD []).map typeName)))
        else Except.ok var) := by
  by_cases h1 : var = PyVal.none
  · by_cases h2 : PyType.noneType ∈ valid_types.getD []
    · simp [check_type_validity, validationFails, h1, h2]
    · simp [check_type_validity, validationFails, h1, h2]
  · by_cases h3 : valid_types.getD [] = []
    · simp [check_type_validity, validationFails, h1, h3]
    · by_cases h4 : ∀ t ∈ valid_types.getD [], isinstance var t = false
      · simp [check_type_validity, validationFails, h1, h3, eq_true h4]
      · simp [check_type_validity, validationFails, h1, h3, h4]

/-- C10: an absent (`None`) value with an absent or empty allowed-kinds
list fails validation — the `None` check precedes the empty-kinds
pass-through — so non-critical calls return the default (not `None` by
pass-through) and critical calls raise; the empty-kinds pass-through
applies only to non-absent values. -/
theorem check_type_validity_none_before_empty_kinds (default_value : PyVal)
    (param_name introspected_name : Option String) :
    ((check_type_validity PyVal.none Option.none default_value false
        param_name introspected_name).result = Except.ok default_value)
    ∧ ((check_type_validity PyVal.none (some []) default_value false
        param_name introspected_name).result = Except.ok default_value)
    ∧ ((check_type_validity PyVal.none Option.none default_value true
        param_name introspected_name).result
        = Except.error (PyErr.typeError
            ("Argument \x22" ++ varNameOf param_name introspected_name
              ++ "\x22 cannot be None")))
    ∧ ((check_type_validity PyVal.none (some []) default_value true
        param_name introspected_name).result
        = Except.error (PyErr.typeError
            ("Argument \x22" ++ varNameOf param_name introspected_name
              ++ "\x22 cannot be None")))
    ∧ (∀ (v : PyVal) (critical : Bool), v ≠ PyVal.none →
        (check_type_validity v (some []) default_value critical
            param_name introspected_name).result = Except.ok v) := by
  refine ⟨?_, ?_, ?_, ?_, ?_⟩
  · simp [check_type_validity]
  · simp [check_type_validity]
  · simp [check_type_validity]
  · simp [check_type_validity]
  · intro v critical hv
    unfold check_type_validity
    simp [hv]

/-- Witness for C10: a present value (`5`) passes through unchanged under
empty kinds, while absent `None` is replaced by the default. -/
theorem check_type_validity_none_before_empty_kinds_witness :
    ((check_type_validity PyVal.none (some []) (PyVal.str "d") false
        (some "x") Option.none).result = Except.ok (PyVal.str "d"))
    ∧ ((check_type_validity (PyVal.int 5) (some []) (PyVal.str "d") false
        (some "x") Option.none).result = Except.ok (PyVal.int 5)) :=
  ⟨(check_type_validity_none_before_empty_kinds (PyVal.str "d")
      (some "x") Option.none).2.1,
   (check_type_validity_none_before_empty_kinds (PyVal.str "d")
      (some "x") Option.none).2.2.2.2 (PyVal.int 5) false (by decide)⟩

/-- `StatusText._phrases` (`custom.py` lines 76-139): the fixed read-only
mapping from HTTP status codes to reason phrases, as an association list
in source order. -/
def StatusText.phrases : List (Int × String) :=
  [(100, "Continue"),
   (101, "Switching Protocols"),
   (102, "Processing"),
   (103, "Early Hints"),
   (200, "OK"),
   (201, "Created"),
   (202, "Accepted"),
   (203, "Non-Authoritative Information"),
   (204, "No Content"),
   (205, "Reset Content"),
   (206, "Partial Content"),
   (207, "Multi-Status"),
   (208, "Already Reported"),
   (226, "IM Used"),
   (300, "Multiple Choices"),
   (301, "Moved Permanently"),
   (302, "Found"),
   (303, "See Other"),
   (304, "Not Modified"),
   (305, "Use Proxy"),
   (307, "Temporary Redirect"),
   (308, "Permanent Redirect"),
   (400, "Bad Request"),
   (401, "Unauthorized"),
   (402, "Payment Required"),
   (403, "Forbidden"),
   (404, "Not Found"),
   (405, "Method Not Allowed"),
   (406, "Not Acceptable"),
   (407, "Proxy Authentication Required"),
   (408, "Request Timeout"),
   (409, "Conflict"),
   (410, "Gone"),
   (411, "Length Required"),
   (412, "Precondition Failed"),
   (413, "Payload Too Large"),
   (414, "URI Too Long"),
   (415, "Unsupported Media Type"),
   (416, "Range Not Satisfiable"),
   (417, "Expectation Failed"),
   (418, "I\x27m a teapot"),
   (421, "Misdirected Request"),
   (422, "Unprocessable Entity"),
   (423, "Locked"),
   (424, "Failed Dependency"),
   (425, "Too Early"),
   (426, "Upgrade Required"),
   (428, "Precondition Required"),
   (429, "Too Many Requests"),
   (431, "Request Header Fields Too Large"),
   (451, "Unavailable For Legal Reasons"),
   (500, "Internal Server Error"),
   (501, "Not Implemented"),
   (502, "Bad Gateway"),
   (503, "Service Unavailable"),
   (504, "Gateway Timeout"),
   (505, "HTTP Version Not Supported"),
   (506, "Variant Also Negotiates"),
   (507, "Insufficient Storage"),
   (508, "Loop Detected"),
   (510, "Not Extended"),
   (511, "Network Authentication Required")]

/-- The body of `StatusText.get` (`custom.py` lines 141-145):
`cls._phrases.get(status_code, "Unknown Status Code")`. -/
def StatusText.get (status_code : Int) : String :=
  (StatusText.phrases.lookup status_code).getD "Unknown Status Code"


/-- Modelled from the spec: the `@cache(maxsize=128)` decorator on
`StatusText.get` is imported from `scrapling.core.utils`, which is not
among the sources. The spec describes it as memoization per distinct
argument in a bounded cache of capacity 128, eviction policy unspecified
beyond "bounded cache". The cache state is an association list, newest
entry first; insertion truncates to 128 entries. -/
structure StatusCache where
  entries : List (Int × String)
deriving DecidableEq, Repr

/-- Membership of a well-formed cache: every cached pair agrees with the
uncached `StatusText.get`. -/
def StatusCache.wf (c : StatusCache) : Prop :=
  ∀ p ∈ c.entries, StatusText.get p.1 = p.2

/-- Modelled from the spec: one call of the memoized `StatusText.get`.
Returns the phrase, the new cache state, and whether the underlying
lookup was recomputed (`false` on a cache hit). -/
def StatusText.getMemo (c : StatusCache) (status_code : Int) :
    String × StatusCache × Bool :=
  match c.entries.lookup status_code with
  | some v => (v, c, false)
  | Option.none =>
    let v := StatusText.get status_code
    (v, ⟨(status_code, v) :: c.entries.take 127⟩, true)

/-- Helper: a key outside the stored keys is not found. -/
theorem lookup_none_of_not_mem_keys (l : List (Int × String)) (k : Int)
    (h : k ∉ l.map Prod.fst) : l.lookup k = Option.none := by
  induction l with
  | nil => rfl
  | cons p t ih =>
    obtain ⟨a, b⟩ := p
    simp only [List.map_cons, List.mem_cons, not_or] at h
    have hb : (k == a) = false := beq_eq_false_iff_ne.mpr h.1
    simp [List.lookup, hb, ih h.2]

/-- Helper: a found pair is a member of the association list. -/
theorem mem_of_lookup_eq_some (l : List (Int × String)) (k : Int) (v : String)
    (h : l.lookup k = some v) : (k, v) ∈ l := by
  induction l with
  | nil => simp [List.lookup] at h
  | cons p t ih =>
    obtain ⟨a, b⟩ := p
    by_cases hk : (k == a) = true
    · have hka : k = a := beq_iff_eq.mp hk
      simp [List.lookup, hk] at h
      subst hka
      subst h
      exact List.mem_cons_self _ _
    · have hb : (k == a) = false := by
        simpa using hk
      simp [List.lookup, hb] at h
      exact List.mem_cons_of_mem _ (ih h)

/-- C6: `StatusText.get` returns the documented phrase for every code in
the fixed table and the literal "Unknown Status Code" for every other
integer; the memoized version returns the identical value on a repeated
lookup of the same code without recomputing after the first call, agrees
with the uncached function on well-formed caches, and keeps at most 128
entries. -/
theorem statusText_get_spec :
    (∀ cp ∈ StatusText.phrases, StatusText.get cp.1 = cp.2)
    ∧ (∀ code : Int, code ∉ StatusText.phrases.map Prod.fst →
        StatusText.get code = "Unknown Status Code")
    ∧ (∀ (c : StatusCache) (code : Int),
        (StatusText.getMemo (StatusText.getMemo c code).2.1 code).1
            = (StatusText.getMemo c code).1
        ∧ (StatusText.getMemo (StatusText.getMemo c code).2.1 code).2.2 = false)
    ∧ (∀ (c : StatusCache) (code : Int), c.wf →
        (StatusText.getMemo c code).1 = StatusText.get code)
    ∧ (∀ (c : StatusCache) (code : Int), c.entries.length ≤ 128 →
        (StatusText.getMemo c code).2.1.entries.length ≤ 128) := by
  refine ⟨by decide, ?_, ?_, ?_, ?_⟩
  · intro code h
    simp [StatusText.get, lookup_none_of_not_mem_keys _ _ h]
  · intro c code
    cases h : c.entries.lookup code with
    | some v =>
      constructor <;> simp [StatusText.getMemo, h]
    | none =>
      constructor <;> simp [StatusText.getMemo, h, List.lookup]
  · intro c code hwf
    cases h : c.entries.lookup code with
    | some v =>
      have hv := hwf (code, v) (mem_of_lookup_eq_some _ _ _ h)
      simp [StatusText.getMemo, h, hv]
    | none =>
      simp [StatusText.getMemo, h]
  · intro c code hlen
    cases h : c.entries.lookup code with
    | some v => simpa [StatusText.getMemo, h] using hlen
    | none =>
      simp [StatusText.getMemo, h, List.length_take]

/-- Witness for C6: code 404 maps to "Not Found"; code 999 is unknown;
on the empty cache a second lookup of 404 returns the same phrase with no
recomputation. -/
theorem statusText_get_spec_witness :
    StatusText.get 404 = "Not Found"
    ∧ StatusText.get 999 = "Unknown Status Code"
    ∧ (StatusText.getMemo (StatusText.getMemo ⟨[]⟩ 404).2.1 404).1
        = (StatusText.getMemo ⟨[]⟩ 404).1
    ∧ (StatusText.getMemo (StatusText.getMemo ⟨[]⟩ 404).2.1 404).2.2 = false
    ∧ (StatusText.getMemo ⟨[]⟩ 404).1 = StatusText.get 404 :=
  ⟨statusText_get_spec.1 (404, "Not Found") (by decide),
   statusText_get_spec.2.1 999 (by decide),
   (statusText_get_spec.2.2.1 ⟨[]⟩ 404).1,
   (statusText_get_spec.2.2.1 ⟨[]⟩ 404).2,
   statusText_get_spec.2.2.2.1 ⟨[]⟩ 404 (by simp [StatusCache.wf])⟩
